import Mathlib

/-!
A shallow embedding of the AutoSetSyntax Sublime Text plugin
(src/AutoSetSyntax.py and src/AutoSetNewFileSyntax.py) and proofs about it.

Text is modelled as `List Char` so that Python's character-level string
operations (`str.find`, slicing, `str.strip`) can be embedded directly.
Compiled regular expressions and the YAML parser are host/third-party
components (Python's `re` module and the bundled `yaml` package, neither of
which is part of this repository); they are modelled abstractly: a compiled
regex is its `search` predicate, `re.compile` is a parameter returning
`Option Regex` (`none` = the `re.error` branch of a `try`), and `yaml.load`
is a parameter that may fail with a parse error.
-/

abbrev Str := List Char

/-- Helper for Python's `str.find`: the least index `≥ i` (scanning `s` from
its head, which corresponds to absolute index `i`) at which `sub` occurs as a
prefix of the remaining text. -/
def strFindAux (sub : Str) : Str → Nat → Option Nat
  | [], i => if sub.isPrefixOf ([] : Str) then some i else none
  | c :: rest, i => if sub.isPrefixOf (c :: rest) then some i else strFindAux sub rest (i + 1)

/-- Python's `s.find(sub)`: index of the first occurrence of `sub` in `s`,
`-1` when there is none. -/
def strFind (s sub : Str) : Int :=
  match strFindAux sub s 0 with
  | some i => Int.ofNat i
  | none => -1

/-- Python's `\s` / `str.strip` whitespace characters (ASCII fragment). -/
def isPySpace (c : Char) : Bool :=
  c = ' ' || c = '\t' || c = '\n' || c = '\r' || c = '\x0b' || c = '\x0c'

/-- Python's `str.strip()`: drop leading and trailing whitespace. -/
def pyStrip (s : Str) : Str :=
  ((s.dropWhile isPySpace).reverse.dropWhile isPySpace).reverse

/-- Dictionary lookup (`key in d` / `d[key]`) for a YAML mapping modelled as
an association list. -/
def lookupAssoc : List (Str × Str) → Str → Option Str
  | [], _ => none
  | (k, v) :: rest, key => if k = key then some v else lookupAssoc rest key

/-- The text of `s` strictly before the first occurrence of `sub`
(`none` when `sub` does not occur): the non-greedy capture up to the closing
literal in a regex such as `(.*?)</string>`. -/
def takeUntilSub (s sub : Str) : Option Str :=
  (strFindAux sub s 0).map fun i => s.take i

/-- A compiled regular expression, abstracted to its `search` behaviour:
`search line = true` iff `regex.search(line)` returns a match object. -/
structure Regex where
  search : Str → Bool

/-- Python exceptions that escape the embedded fragments: a YAML parse
failure from `yaml.load`, and `IndexError` from subscripting an empty
string. -/
inductive PyError where
  | yamlParseError (msg : String)
  | indexError
deriving DecidableEq

/-- The behaviour of the third-party `yaml.load`: parse text into a mapping
(modelled as an association list) or fail. -/
abbrev YamlLoad := Str → Except PyError (List (Str × Str))

/-- The behaviour of `re.compile`: `none` models the exception branch
(pattern fails to compile), `some r` a successfully compiled regex. -/
abbrev ReCompile := Str → Option Regex

/-! ## First-Line-Match Extractor (src/AutoSetNewFileSyntax.py, SyntaxMappings) -/

/-- The literal `'contexts:'` used to truncate `.sublime-syntax` content. -/
def contextsLit : Str := "contexts:".toList

/-- The literal `'first_line_match'` field name. -/
def firstLineMatchLit : Str := "first_line_match".toList

/-- The truncation step of `findFirstLineMatchYaml`:
`cutPos = content.find('contexts:'); if cutPos != -1: content = content[0:cutPos]`. -/
def truncAtContexts (content : Str) : Str :=
  let cutPos := strFind content contextsLit
  if cutPos ≠ -1 then content.take cutPos.toNat else content

/-- Embeds `SyntaxMappings.findFirstLineMatchYaml`
(src/AutoSetNewFileSyntax.py lines 123-138): truncate at `'contexts:'`,
return `None` without parsing when `'first_line_match'` is absent from the
truncated text, otherwise `yaml.load` the truncated text (a parse failure
propagates as an exception) and look the field up in the resulting dict. -/
def findFirstLineMatchYaml (yamlLoad : YamlLoad) (content : Str) :
    Except PyError (Option Str) :=
  let content := truncAtContexts content
  if strFind content firstLineMatchLit = -1 then .ok none
  else
    match yamlLoad content with
    | .error e => .error e
    | .ok yamlDict => .ok (lookupAssoc yamlDict firstLineMatchLit)

/-- The literal head of the regex
`firstLineMatch</key>\s*<string>(.*?)</string>` of `findFirstLineMatchXml`. -/
def xmlKeyLit : Str := "firstLineMatch</key>".toList

/-- One attempted match of `firstLineMatch</key>\s*<string>(.*?)</string>`
(with `re.DOTALL`) anchored at the start of `s`: the literal key, any run of
whitespace, the literal `<string>`, then the shortest capture up to the next
`</string>`. -/
def xmlRegexMatchAt (s : Str) : Option Str :=
  if xmlKeyLit.isPrefixOf s then
    let rest := (s.drop xmlKeyLit.length).dropWhile isPySpace
    if ("<string>".toList).isPrefixOf rest then
      takeUntilSub (rest.drop ("<string>".toList).length) ("</string>".toList)
    else none
  else none

/-- `re.search` of the pattern above: try a match at every start position,
returning the first success. -/
def xmlRegexSearch : Str → Option Str
  | [] => xmlRegexMatchAt []
  | c :: rest =>
    match xmlRegexMatchAt (c :: rest) with
    | some captured => some captured
    | none => xmlRegexSearch rest

/-- Embeds `SyntaxMappings.findFirstLineMatchXml`
(src/AutoSetNewFileSyntax.py lines 140-153): find `'firstLineMatch'`, return
`None` when absent, otherwise run the key/value regex over the remainder. -/
def findFirstLineMatchXml (content : Str) : Option Str :=
  let cutPoint := strFind content ("firstLineMatch".toList)
  if cutPoint = -1 then none
  else xmlRegexSearch (content.drop cutPoint.toNat)

/-- Embeds `SyntaxMappings.findFirstLineMatch`
(src/AutoSetNewFileSyntax.py lines 114-121): strip the content, dispatch on
`content[0]` (`'%'` selects the YAML path); subscripting an empty stripped
string raises `IndexError`. -/
def findFirstLineMatch (yamlLoad : YamlLoad) (content : Str) :
    Except PyError (Option Str) :=
  let content := pyStrip content
  match content with
  | [] => .error .indexError
  | c :: rest =>
    if c = '%' then findFirstLineMatchYaml yamlLoad (c :: rest)
    else .ok (findFirstLineMatchXml (c :: rest))

/-! ## Syntax Mapping Table (src/AutoSetNewFileSyntax.py, SyntaxMappings) -/

/-- Embeds `SyntaxMappings.buildSyntaxMappingsFromUser`
(src/AutoSetNewFileSyntax.py lines 57-70): for each
`(syntaxFile, firstLineMatches)` of the `syntax_mapping` setting, compile
each pattern (compile failures are logged and dropped individually) and keep
the entry only when at least one pattern compiled. -/
def buildSyntaxMappingsFromUser (compile : ReCompile)
    (syntaxMappingSetting : List (String × List Str)) :
    List (String × List Regex) :=
  match syntaxMappingSetting with
  | [] => []
  | (syntaxFile, firstLineMatches) :: rest =>
    let firstLineMatchRegexes := firstLineMatches.filterMap compile
    if firstLineMatchRegexes.length > 0 then
      (syntaxFile, firstLineMatchRegexes) :: buildSyntaxMappingsFromUser compile rest
    else buildSyntaxMappingsFromUser compile rest

/-- Embeds `SyntaxMappings.buildSyntaxMappingsFromSt`
(src/AutoSetNewFileSyntax.py lines 72-83): for each discovered resource
(paired here with its loaded content), run the extractor — note that this
call stands OUTSIDE the `try`, so a `PyError` raised by it propagates and
aborts the whole build — and, when a pattern was extracted, append a
single-regex entry; only `re.compile` failures are caught and skipped. -/
def buildSyntaxMappingsFromSt (compile : ReCompile) (yamlLoad : YamlLoad)
    (resources : List (String × Str)) :
    Except PyError (List (String × List Regex)) :=
  match resources with
  | [] => .ok []
  | (syntaxFile, content) :: rest =>
    match findFirstLineMatch yamlLoad content with
    | .error e => .error e
    | .ok firstLineMatch =>
      match buildSyntaxMappingsFromSt compile yamlLoad rest with
      | .error e => .error e
      | .ok tail =>
        match firstLineMatch with
        | none => .ok tail
        | some flm =>
          match compile flm with
          | some r => .ok ((syntaxFile, [r]) :: tail)
          | none => .ok tail

/-- The state of a `SyntaxMappings` object (src/AutoSetNewFileSyntax.py
lines 35-55): the current table and the cached ST-discovered part. -/
structure SyntaxMappings where
  syntaxMappings : List (String × List Regex)
  syntaxMappingsSt : List (String × List Regex)

/-- Embeds `SyntaxMappings.value` (line 51-52). -/
def SyntaxMappings.value (self : SyntaxMappings) : List (String × List Regex) :=
  self.syntaxMappings

/-- Embeds `SyntaxMappings.rebuildSyntaxMappings` (lines 54-55):
`self.syntaxMappings = self.buildSyntaxMappingsFromUser() + self.syntaxMappingsSt`. -/
def SyntaxMappings.rebuildSyntaxMappings (self : SyntaxMappings)
    (compile : ReCompile) (syntaxMappingSetting : List (String × List Str)) :
    SyntaxMappings :=
  { self with
    syntaxMappings :=
      buildSyntaxMappingsFromUser compile syntaxMappingSetting ++ self.syntaxMappingsSt }

/-- Embeds `SyntaxMappings.__init__` (lines 44-49): cache the ST-discovered
mappings, then rebuild the table from user settings; a `PyError` escaping
`buildSyntaxMappingsFromSt` propagates out of construction. -/
def SyntaxMappings.init (compile : ReCompile) (yamlLoad : YamlLoad)
    (resources : List (String × Str))
    (syntaxMappingSetting : List (String × List Str)) :
    Except PyError SyntaxMappings :=
  match buildSyntaxMappingsFromSt compile yamlLoad resources with
  | .error e => .error e
  | .ok st =>
    .ok ((SyntaxMappings.mk [] st).rebuildSyntaxMappings compile syntaxMappingSetting)

/-! ## Working-Scope Filter and Event Gate (src/AutoSetSyntax.py) -/

/-- The error message built by `compileWorkingScope` (src/AutoSetSyntax.py
line 61): `'regex compilation failed in user settings "{0}": {1}'.format('working_scope', workingScope)`. -/
def workingScopeErrorMessage (workingScope : Str) : Str :=
  "regex compilation failed in user settings \"working_scope\": ".toList ++ workingScope

/-- Embeds `compileWorkingScope` (src/AutoSetSyntax.py lines 52-64). Returns
the new `workingScopeRegex`, the list of messages passed to `logger.error`,
and the list of messages passed to `sublime.error_message`: on compile
failure the filter becomes `none` and the error message (naming the
offending pattern) is both logged and shown. -/
def compileWorkingScope (compile : ReCompile) (workingScope : Str) :
    Option Regex × List Str × List Str :=
  match compile workingScope with
  | some regex => (some regex, [], [])
  | none =>
    (none, [workingScopeErrorMessage workingScope], [workingScopeErrorMessage workingScope])

/-- The host `View` state the event listeners read: cursor count, the row of
the first cursor, the scope name at position 0, and the first line's text. -/
structure View where
  selCount : Nat
  firstCursorRow : Nat
  scopeName : Str
  bufferFirstLine : Str

/-- Embeds `AutoSetNewFileSyntax.isEventListenerEnabled`
(src/AutoSetSyntax.py lines 141-148):
`settings.get('event_listeners', None)[event]`, where any exception (the
setting absent → `None` subscript → `TypeError`; the key absent →
`KeyError`) is caught, a warning logged, and `True` returned. -/
def isEventListenerEnabled (eventListeners : Option (List (String × Bool)))
    (event : String) : Bool :=
  match eventListeners with
  | none => true
  | some dict =>
    match dict.lookup event with
    | some enabled => enabled
    | none => true

/-- Embeds `AutoSetNewFileSyntax.isOnlyOneCursor` (lines 150-153). -/
def isOnlyOneCursor (view : View) : Bool :=
  view.selCount == 1

/-- Embeds `AutoSetNewFileSyntax.isFirstCursorNearBeginning` (lines 155-158). -/
def isFirstCursorNearBeginning (view : View) : Bool :=
  view.firstCursorRow < 2

/-- Embeds `AutoSetNewFileSyntax.isOnWorkingScope` (src/AutoSetSyntax.py
lines 160-168): `False` when the filter is disabled (`None`) or its search
over `view.scope_name(0)` fails, `True` otherwise. -/
def isOnWorkingScope (workingScopeRegex : Option Regex) (view : View) : Bool :=
  match workingScopeRegex with
  | none => false
  | some regex => regex.search view.scopeName

/-- Embeds `AutoSetNewFileSyntax.on_activated_async` (lines 70-77): `true`
iff `view.run_command('auto_set_syntax')` is invoked. -/
def on_activated_async (eventListeners : Option (List (String × Bool)))
    (workingScopeRegex : Option Regex) (view : View) : Bool :=
  isEventListenerEnabled eventListeners "on_activated_async" &&
    isOnWorkingScope workingScopeRegex view

/-- Embeds `AutoSetNewFileSyntax.on_clone_async` (lines 79-86). -/
def on_clone_async (eventListeners : Option (List (String × Bool)))
    (workingScopeRegex : Option Regex) (view : View) : Bool :=
  isEventListenerEnabled eventListeners "on_clone_async" &&
    isOnWorkingScope workingScopeRegex view

/-- Embeds `AutoSetNewFileSyntax.on_load_async` (lines 88-95). -/
def on_load_async (eventListeners : Option (List (String × Bool)))
    (workingScopeRegex : Option Regex) (view : View) : Bool :=
  isEventListenerEnabled eventListeners "on_load_async" &&
    isOnWorkingScope workingScopeRegex view

/-- Embeds `AutoSetNewFileSyntax.on_modified_async` (lines 97-106). -/
def on_modified_async (eventListeners : Option (List (String × Bool)))
    (workingScopeRegex : Option Regex) (view : View) : Bool :=
  isEventListenerEnabled eventListeners "on_modified_async" &&
    isOnlyOneCursor view &&
    isFirstCursorNearBeginning view &&
    isOnWorkingScope workingScopeRegex view

/-- Embeds `AutoSetNewFileSyntax.on_new_async` (lines 108-115). -/
def on_new_async (eventListeners : Option (List (String × Bool)))
    (workingScopeRegex : Option Regex) (view : View) : Bool :=
  isEventListenerEnabled eventListeners "on_new_async" &&
    isOnWorkingScope workingScopeRegex view

/-- Embeds `AutoSetNewFileSyntax.on_post_text_command`
(src/AutoSetSyntax.py lines 117-130), literals included verbatim: the
command-name comparison is against `'patse'` (sic) and `'paste_and_indent'`. -/
def on_post_text_command (eventListeners : Option (List (String × Bool)))
    (workingScopeRegex : Option Regex) (view : View) (command_name : String) : Bool :=
  isOnWorkingScope workingScopeRegex view &&
    (isEventListenerEnabled eventListeners "on_post_paste" &&
      (command_name == "patse" || command_name == "paste_and_indent"))

/-- Embeds `AutoSetNewFileSyntax.on_pre_save_async` (lines 132-139). -/
def on_pre_save_async (eventListeners : Option (List (String × Bool)))
    (workingScopeRegex : Option Regex) (view : View) : Bool :=
  isEventListenerEnabled eventListeners "on_pre_save_async" &&
    isOnWorkingScope workingScopeRegex view

/-! ## Syntax Applier (src/AutoSetSyntax.py, autoSetSyntaxCommand;
src/AutoSetNewFileSyntax.py, AutoSetNewFileSyntax.matchAndSetSyntax) -/

/-- Embeds `autoSetSyntaxCommand.getPartialFirstLine` (src/AutoSetSyntax.py
lines 185-194) and the identical `AutoSetNewFileSyntax.getPartialFirstLine`
(src/AutoSetNewFileSyntax.py lines 181-189): `region = view.line(0)` spans
`[0, length of first line)`; when `first_line_length_max >= 0` the region
becomes `[0, min(region.end(), firstLineLengthMax))`; `view.substr` of it is
the corresponding character prefix. -/
def getPartialFirstLine (firstLineLengthMax : Int) (line : Str) : Str :=
  if firstLineLengthMax ≥ 0 then
    line.take (min (Int.ofNat line.length) firstLineLengthMax).toNat
  else line

/-- The nested scan loop shared by `autoSetSyntaxCommand.run`
(src/AutoSetSyntax.py lines 178-183) and
`AutoSetNewFileSyntax.matchAndSetSyntax` (src/AutoSetNewFileSyntax.py lines
174-179): walk the entries in order, each entry's regexes in order; the
first successful `search` yields `view.set_syntax_file(syntaxFile)` and
returns (`some syntaxFile`); falling off the loop leaves the syntax
unchanged (`none`). -/
def matchFirstLine (syntaxMappingsValue : List (String × List Regex))
    (firstLine : Str) : Option String :=
  match syntaxMappingsValue with
  | [] => none
  | (syntaxFile, firstLineMatchRegexes) :: rest =>
    if firstLineMatchRegexes.any (fun regex => regex.search firstLine) then
      some syntaxFile
    else matchFirstLine rest firstLine

/-- Embeds `autoSetSyntaxCommand.run` (src/AutoSetSyntax.py lines 174-183):
take the (possibly truncated) first line and scan the mapping table;
`some syntaxFile` means `set_syntax_file(syntaxFile)` was requested, `none`
means the buffer's syntax was left unchanged. -/
def autoSetSyntaxCommandRun (syntaxMappingsValue : List (String × List Regex))
    (firstLineLengthMax : Int) (view : View) : Option String :=
  matchFirstLine syntaxMappingsValue
    (getPartialFirstLine firstLineLengthMax view.bufferFirstLine)

/-! ## Helper lemmas -/

theorem strFindAux_le (sub : Str) (s : Str) :
    ∀ i m, strFindAux sub s i = some m → i ≤ m := by
  induction s with
  | nil =>
    intro i m h
    simp only [strFindAux] at h
    split at h
    · exact (Option.some_inj.mp h) ▸ le_refl i
    · exact absurd h (by simp)
  | cons c rest ih =>
    intro i m h
    simp only [strFindAux] at h
    split at h
    · exact (Option.some_inj.mp h) ▸ le_refl i
    · have := ih (i + 1) m h
      omega

theorem strFindAux_take_eq_none (sub : Str) (hsub : sub ≠ []) (s : Str) :
    ∀ i k, strFindAux sub s i = some (i + k) → strFindAux sub (s.take k) i = none := by
  induction s with
  | nil =>
    intro i k h
    simp only [strFindAux] at h
    have hp : sub.isPrefixOf ([] : Str) = false := by
      cases sub with
      | nil => exact absurd rfl hsub
      | cons a as => rfl
    rw [hp] at h
    simp at h
  | cons c rest ih =>
    intro i k h
    have hp0 : sub.isPrefixOf ([] : Str) = false := by
      cases sub with
      | nil => exact absurd rfl hsub
      | cons a as => rfl
    simp only [strFindAux] at h
    split at h
    case isTrue hpre =>
      have hk : k = 0 := by
        have := Option.some_inj.mp h
        omega
      subst hk
      simp only [List.take_zero, strFindAux, hp0]
      rfl
    case isFalse hpre =>
      have hle := strFindAux_le sub rest (i + 1) (i + k) h
      have hk : k = (k - 1) + 1 := by omega
      rw [hk] at h ⊢
      have h' : strFindAux sub rest (i + 1) = some ((i + 1) + (k - 1)) := by
        rw [h]; congr 1; omega
      have hnone := ih (i + 1) (k - 1) h'
      rw [List.take_succ_cons]
      simp only [strFindAux]
      split
      case isTrue hpre2 =>
        exfalso
        apply hpre
        have h1 : sub <+: c :: rest.take (k - 1) := List.isPrefixOf_iff_prefix.mp hpre2
        have h2 : c :: rest.take (k - 1) <+: c :: rest := by
          refine ⟨rest.drop (k - 1), ?_⟩
          simp
        exact List.isPrefixOf_iff_prefix.mpr (h1.trans h2)
      case isFalse hpre2 =>
        exact hnone

/-- Minimality of `str.find`: no occurrence of `sub` lies strictly before the
first one, so searching the prefix that ends where the first occurrence
starts finds nothing. -/
theorem strFind_take_eq_neg_one (s sub : Str) (k : Nat) (hsub : sub ≠ [])
    (h : strFind s sub = Int.ofNat k) : strFind (s.take k) sub = -1 := by
  unfold strFind at h ⊢
  cases haux : strFindAux sub s 0 with
  | none => rw [haux] at h; simp at h
  | some m =>
    rw [haux] at h
    have hm : m = k := by
      simp at h; omega
    subst hm
    have : strFindAux sub (s.take m) 0 = none :=
      strFindAux_take_eq_none sub hsub s 0 m (by simpa using haux)
    rw [this]

theorem truncAtContexts_of_found (content : Str) (k : Nat)
    (h : strFind content contextsLit = Int.ofNat k) :
    truncAtContexts content = content.take k := by
  unfold truncAtContexts
  rw [h]
  have hne : (Int.ofNat k) ≠ -1 := by rw [Int.ofNat_eq_coe]; omega
  rw [if_pos hne]
  rfl

theorem truncAtContexts_of_notFound (content : Str)
    (h : strFind content contextsLit = -1) :
    truncAtContexts content = content := by
  unfold truncAtContexts
  rw [h]
  simp

/-- Truncating at the first `'contexts:'` marker is idempotent: the truncated
text holds no marker, by minimality of the first occurrence. -/
theorem truncAtContexts_idem (content : Str) :
    truncAtContexts (truncAtContexts content) = truncAtContexts content := by
  cases haux : strFindAux contextsLit content 0 with
  | some k =>
    have h : strFind content contextsLit = Int.ofNat k := by unfold strFind; rw [haux]
    rw [truncAtContexts_of_found content k h]
    exact truncAtContexts_of_notFound _
      (strFind_take_eq_neg_one content contextsLit k (by decide) h)
  | none =>
    have h : strFind content contextsLit = -1 := by unfold strFind; rw [haux]
    rw [truncAtContexts_of_notFound content h, truncAtContexts_of_notFound content h]

/-- The scan loop equals a first-match search over the table. -/
theorem matchFirstLine_eq_find? (table : List (String × List Regex)) (line : Str) :
    matchFirstLine table line
      = (table.find? (fun e => e.2.any fun regex => regex.search line)).map Prod.fst := by
  induction table with
  | nil => rfl
  | cons e rest ih =>
    obtain ⟨syntaxFile, regexes⟩ := e
    simp only [matchFirstLine, List.find?_cons]
    by_cases h : regexes.any (fun regex => regex.search line) = true
    · simp [h]
    · simp only [Bool.not_eq_true] at h
      simp [h, ih]
/-- C1: the Syntax Applier scans entries in table order and patterns in
order; the first successful search sets the buffer's syntax to that entry's
identifier and stops; with no match anywhere, the syntax is unchanged
(`none`). -/
theorem C1_applier_first_match_wins (syntaxMappingsValue : List (String × List Regex))
    (firstLineLengthMax : Int) (view : View) :
    autoSetSyntaxCommandRun syntaxMappingsValue firstLineLengthMax view
      = (syntaxMappingsValue.find? (fun e =>
          e.2.any fun regex =>
            regex.search (getPartialFirstLine firstLineLengthMax view.bufferFirstLine))).map
          Prod.fst
    ∧ (autoSetSyntaxCommandRun syntaxMappingsValue firstLineLengthMax view = none
        ↔ ∀ e ∈ syntaxMappingsValue, ∀ regex ∈ e.2,
            regex.search (getPartialFirstLine firstLineLengthMax view.bufferFirstLine)
              = false) := by
  constructor
  · exact matchFirstLine_eq_find? _ _
  · unfold autoSetSyntaxCommandRun
    rw [matchFirstLine_eq_find?]
    simp [List.find?_eq_none, List.any_eq_true]

/-- C3: with `first_line_length_max = N ≥ 0` and a first line longer than
`N`, matching uses exactly the first `N` characters; with the line no longer
than `N`, the whole line; with `N < 0`, always the whole line. -/
theorem C3_partial_first_line (firstLineLengthMax : Int) (line : Str) :
    (0 ≤ firstLineLengthMax → firstLineLengthMax < Int.ofNat line.length →
      getPartialFirstLine firstLineLengthMax line = line.take firstLineLengthMax.toNat)
    ∧ (0 ≤ firstLineLengthMax → Int.ofNat line.length ≤ firstLineLengthMax →
      getPartialFirstLine firstLineLengthMax line = line)
    ∧ (firstLineLengthMax < 0 → getPartialFirstLine firstLineLengthMax line = line) := by
  refine ⟨fun h0 hlt => ?_, fun h0 hle => ?_, fun hneg => ?_⟩
  · unfold getPartialFirstLine
    rw [if_pos h0, min_eq_right (le_of_lt hlt)]
  · unfold getPartialFirstLine
    rw [if_pos h0, min_eq_left hle]
    simp
  · unfold getPartialFirstLine
    rw [if_neg (by omega)]

/-- C7: the YAML extractor's result depends only on the content truncated at
the first `'contexts:'` marker; when the truncated text lacks the literal
`'first_line_match'` it returns absent for every parser (no parsing), so in
particular a `first_line_match` declaration occurring only after the marker
yields absent; otherwise it parses the truncated text and returns the
field's value if present, else absent. -/
theorem C7_yaml_truncation_and_fast_path (yamlLoad yamlLoad2 : YamlLoad) (content : Str) :
    findFirstLineMatchYaml yamlLoad content
        = findFirstLineMatchYaml yamlLoad (truncAtContexts content)
    ∧ (strFind (truncAtContexts content) firstLineMatchLit = -1 →
        findFirstLineMatchYaml yamlLoad content = Except.ok none
        ∧ findFirstLineMatchYaml yamlLoad content = findFirstLineMatchYaml yamlLoad2 content)
    ∧ (∀ yamlDict, strFind (truncAtContexts content) firstLineMatchLit ≠ -1 →
        yamlLoad (truncAtContexts content) = Except.ok yamlDict →
        findFirstLineMatchYaml yamlLoad content
          = Except.ok (lookupAssoc yamlDict firstLineMatchLit)) := by
  refine ⟨?_, fun hflm => ⟨?_, ?_⟩, fun yamlDict hne hok => ?_⟩
  · unfold findFirstLineMatchYaml
    rw [truncAtContexts_idem]
  · unfold findFirstLineMatchYaml
    rw [if_pos hflm]
  · unfold findFirstLineMatchYaml
    rw [if_pos hflm, if_pos hflm]
  · unfold findFirstLineMatchYaml
    rw [if_neg hne, hok]
/-- C2: after a rebuild, `value()` is the user-defined entries followed by
the host-discovered entries; consequently when `U` is the first user entry
whose patterns match the first line, the applier picks `U`'s identifier even
though a host-discovered entry `H` also matches. -/
theorem C2_value_order_user_precedence (self : SyntaxMappings) (compile : ReCompile)
    (syntaxMappingSetting : List (String × List Str)) (line : Str)
    (U H : String × List Regex)
    (hU : (buildSyntaxMappingsFromUser compile syntaxMappingSetting).find?
            (fun e => e.2.any fun regex => regex.search line) = some U)
    (hH : H ∈ self.syntaxMappingsSt)
    (hHmatch : H.2.any (fun regex => regex.search line) = true) :
    (self.rebuildSyntaxMappings compile syntaxMappingSetting).value
        = buildSyntaxMappingsFromUser compile syntaxMappingSetting ++ self.syntaxMappingsSt
    ∧ matchFirstLine (self.rebuildSyntaxMappings compile syntaxMappingSetting).value line
        = some U.1 := by
  refine ⟨rfl, ?_⟩
  have hval : (self.rebuildSyntaxMappings compile syntaxMappingSetting).value
      = buildSyntaxMappingsFromUser compile syntaxMappingSetting ++ self.syntaxMappingsSt := rfl
  rw [hval, matchFirstLine_eq_find?, List.find?_append, hU]
  rfl

/-- C4: when the `working_scope` pattern fails to compile, `compileWorkingScope`
sets the filter to `None`, logs the error message (which names the pattern)
and shows it to the user; with the filter `None`, `isOnWorkingScope` is
`False` for every view, so none of the seven event listeners invokes the
`auto_set_syntax` command. -/
theorem C4_invalid_working_scope_fail_closed (compile : ReCompile) (workingScope : Str)
    (eventListeners : Option (List (String × Bool))) (view : View) (command_name : String)
    (h : compile workingScope = none) :
    compileWorkingScope compile workingScope
        = (none, [workingScopeErrorMessage workingScope], [workingScopeErrorMessage workingScope])
    ∧ workingScopeErrorMessage workingScope
        = "regex compilation failed in user settings \"working_scope\": ".toList ++ workingScope
    ∧ isOnWorkingScope none view = false
    ∧ on_activated_async eventListeners none view = false
    ∧ on_clone_async eventListeners none view = false
    ∧ on_load_async eventListeners none view = false
    ∧ on_modified_async eventListeners none view = false
    ∧ on_new_async eventListeners none view = false
    ∧ on_post_text_command eventListeners none view command_name = false
    ∧ on_pre_save_async eventListeners none view = false := by
  refine ⟨?_, rfl, rfl, ?_, ?_, ?_, ?_, ?_, ?_, ?_⟩
  · unfold compileWorkingScope
    rw [h]
  · simp [on_activated_async, isOnWorkingScope]
  · simp [on_clone_async, isOnWorkingScope]
  · simp [on_load_async, isOnWorkingScope]
  · simp [on_modified_async, isOnWorkingScope]
  · simp [on_new_async, isOnWorkingScope]
  · simp [on_post_text_command, isOnWorkingScope]
  · simp [on_pre_save_async, isOnWorkingScope]
/-! ## Concrete fixtures used by counterexamples and witnesses -/

/-- A compiled regex whose search always succeeds. -/
def regexAlwaysTrue : Regex := ⟨fun _ => true⟩

/-- A `re.compile` behaviour that always succeeds. -/
def compileAlwaysOk : ReCompile := fun _ => some regexAlwaysTrue

/-- A concrete view: one cursor on row 0 of a plain-text buffer. -/
def sampleView : View := ⟨1, 0, "text.plain ".toList, "#!/usr/bin/env python3".toList⟩

/-- A `yaml.load` behaviour that raises a parse error on content holding a
`[` (an unclosed flow sequence) and parses everything else to a mapping with
a `first_line_match` field. -/
def yamlLoadFlaky : YamlLoad := fun content =>
  if strFind content ("[".toList) ≠ -1 then .error (.yamlParseError "while parsing a flow node")
  else .ok [(firstLineMatchLit, "^ok".toList)]

/-- Two discovered resources: the first with malformed YAML (an unclosed
flow sequence in its `first_line_match`), the second well-formed. -/
def flakyResources : List (String × Str) :=
  [("Packages/Bad/Bad.sublime-syntax", "% YAML 1.2\nfirst_line_match: [".toList),
   ("Packages/Good/Good.sublime-syntax", "% YAML 1.2\nfirst_line_match: ^ok".toList)]

/-- C9: the extractor requires non-empty stripped input — all-whitespace
content makes the `content[0]` dispatch raise `IndexError` instead of
returning absent. -/
theorem C9_empty_content_raises (yamlLoad : YamlLoad) (content : Str)
    (h : pyStrip content = []) :
    findFirstLineMatch yamlLoad content = .error .indexError := by
  unfold findFirstLineMatch
  rw [h]

/-- Witness for C9 at the concrete whitespace-only content `"  \n\t"`. -/
theorem C9_empty_content_raises_witness :
    findFirstLineMatch (fun _ => Except.ok []) "  \n\t".toList = .error .indexError :=
  C9_empty_content_raises (fun _ => Except.ok []) "  \n\t".toList rfl

/-- C6: the paste gate is broken by the misspelled literal `'patse'`
(src/AutoSetSyntax.py line 125): with the `on_post_paste` toggle enabled and
a matching working scope, the host's real `paste` command does NOT invoke
the Syntax Applier, while the misspelling `patse` (never a real command) and
`paste_and_indent` do. -/
theorem C6_paste_literal_misspelled :
    on_post_text_command (some [("on_post_paste", true)]) (some regexAlwaysTrue)
        sampleView "paste" = false
    ∧ on_post_text_command (some [("on_post_paste", true)]) (some regexAlwaysTrue)
        sampleView "paste_and_indent" = true
    ∧ on_post_text_command (some [("on_post_paste", true)]) (some regexAlwaysTrue)
        sampleView "patse" = true :=
  ⟨rfl, rfl, rfl⟩

/-- C5 fails on the code: with a malformed YAML resource followed by a
well-formed one, `buildSyntaxMappingsFromSt` does not complete — the parse
error (raised by `findFirstLineMatch`, which is called outside the `try`)
propagates and aborts the whole build, and the well-formed resource is never
processed. -/
theorem C5_counterexample_parse_error_aborts_build :
    buildSyntaxMappingsFromSt compileAlwaysOk yamlLoadFlaky flakyResources
      = .error (.yamlParseError "while parsing a flow node") := rfl
/-- C5 amended: a host-discovered resource whose structured-mapping content
fails to parse is NOT caught by the table builder — the parse error
propagates out of `buildSyntaxMappingsFromSt` and the whole host-discovered
build aborts with an error (no mapping list is produced); only `re.compile`
failures of extracted patterns are caught and skipped. -/
theorem C5_amended_parse_error_propagates (compile : ReCompile) (yamlLoad : YamlLoad)
    (resources : List (String × Str)) (r : String × Str) (e : PyError)
    (hr : r ∈ resources) (he : findFirstLineMatch yamlLoad r.2 = .error e) :
    ∃ e2, buildSyntaxMappingsFromSt compile yamlLoad resources = .error e2 := by
  induction resources with
  | nil => cases hr
  | cons head rest ih =>
    obtain ⟨syntaxFile, content⟩ := head
    rcases List.mem_cons.mp hr with heq | hmem
    · refine ⟨e, ?_⟩
      unfold buildSyntaxMappingsFromSt
      subst heq
      rw [he]
    · unfold buildSyntaxMappingsFromSt
      cases hfind : findFirstLineMatch yamlLoad content with
      | error e3 => exact ⟨e3, rfl⟩
      | ok flm =>
        obtain ⟨e2, he2⟩ := ih hmem
        rw [he2]
        cases flm with
        | none => exact ⟨e2, rfl⟩
        | some pat =>
          cases compile pat with
          | none => exact ⟨e2, rfl⟩
          | some regex => exact ⟨e2, rfl⟩

/-- Witness for the amended C5 at the concrete malformed resource. -/
theorem C5_amended_parse_error_propagates_witness :
    ∃ e2, buildSyntaxMappingsFromSt compileAlwaysOk yamlLoadFlaky flakyResources
        = .error e2 :=
  C5_amended_parse_error_propagates compileAlwaysOk yamlLoadFlaky flakyResources
    ("Packages/Bad/Bad.sublime-syntax", "% YAML 1.2\nfirst_line_match: [".toList)
    (.yamlParseError "while parsing a flow node") (List.mem_cons_self _ _) rfl
/-- Every entry of a successfully built host-discovered list carries exactly
one compiled regex (`[re.compile(firstLineMatch)]`). -/
theorem buildSt_entries_singleton (compile : ReCompile) (yamlLoad : YamlLoad) :
    ∀ (resources : List (String × Str)) (st : List (String × List Regex)),
      buildSyntaxMappingsFromSt compile yamlLoad resources = .ok st →
      ∀ e ∈ st, e.2.length = 1 := by
  intro resources
  induction resources with
  | nil =>
    intro st h e he
    unfold buildSyntaxMappingsFromSt at h
    injection h with h
    subst h
    cases he
  | cons head rest ih =>
    intro st h e he
    obtain ⟨syntaxFile, content⟩ := head
    unfold buildSyntaxMappingsFromSt at h
    cases hfind : findFirstLineMatch yamlLoad content with
    | error e3 => rw [hfind] at h; cases h
    | ok flm =>
      rw [hfind] at h
      dsimp only at h
      cases hrest : buildSyntaxMappingsFromSt compile yamlLoad rest with
      | error e3 => rw [hrest] at h; cases h
      | ok tail =>
        rw [hrest] at h
        dsimp only at h
        cases flm with
        | none =>
          injection h with h
          subst h
          exact ih tail hrest e he
        | some pat =>
          dsimp only at h
          cases hc : compile pat with
          | none =>
            rw [hc] at h
            dsimp only at h
            injection h with h
            subst h
            exact ih tail hrest e he
          | some regex =>
            rw [hc] at h
            dsimp only at h
            injection h with h
            subst h
            rcases List.mem_cons.mp he with heq | hmem
            · rw [heq]; rfl
            · exact ih tail hrest e hmem

/-- Every entry of the user-built list has a non-empty pattern list (the
`len(firstLineMatchRegexes) > 0` guard). -/
theorem buildUser_entries_nonemptyPatterns (compile : ReCompile) :
    ∀ (syntaxMappingSetting : List (String × List Str)) (e : String × List Regex),
      e ∈ buildSyntaxMappingsFromUser compile syntaxMappingSetting → e.2 ≠ [] := by
  intro syntaxMappingSetting
  induction syntaxMappingSetting with
  | nil => intro e he; cases he
  | cons head rest ih =>
    intro e he
    obtain ⟨syntaxFile, firstLineMatches⟩ := head
    unfold buildSyntaxMappingsFromUser at he
    dsimp only at he
    split at he
    case isTrue hl =>
      rcases List.mem_cons.mp he with heq | hmem
      · subst heq
        intro hnil
        simp only at hnil
        rw [hnil] at hl
        simp at hl
      · exact ih e hmem
    case isFalse hl =>
      exact ih e he

/-- C10: every host-discovered entry in a successfully built table carries a
pattern list of exactly one compiled pattern; only user-defined entries can
carry more than one. -/
theorem C10_host_entries_have_one_pattern (compile : ReCompile) (yamlLoad : YamlLoad)
    (resources : List (String × Str)) (st : List (String × List Regex))
    (syntaxMappingSetting : List (String × List Str)) (e : String × List Regex)
    (hok : buildSyntaxMappingsFromSt compile yamlLoad resources = .ok st) :
    (e ∈ st → e.2.length = 1)
    ∧ (e ∈ buildSyntaxMappingsFromUser compile syntaxMappingSetting ++ st →
        1 < e.2.length →
        e ∈ buildSyntaxMappingsFromUser compile syntaxMappingSetting) := by
  refine ⟨fun he => buildSt_entries_singleton compile yamlLoad resources st hok e he,
    fun hmem hlen => ?_⟩
  rcases List.mem_append.mp hmem with hu | hs
  · exact hu
  · have h1 := buildSt_entries_singleton compile yamlLoad resources st hok e hs
    omega
/-- C8: no entry of `value()` after construction (or after any later
rebuild with fresh user settings) has an empty pattern list: user entries
with zero compiled patterns are omitted, and host-discovered entries exist
only when their one extracted pattern compiled. -/
theorem C8_value_entries_never_empty (compile : ReCompile) (yamlLoad : YamlLoad)
    (resources : List (String × Str))
    (syntaxMappingSetting syntaxMappingSetting2 : List (String × List Str))
    (sm : SyntaxMappings) (e : String × List Regex)
    (hinit : SyntaxMappings.init compile yamlLoad resources syntaxMappingSetting = .ok sm)
    (he : e ∈ sm.value
      ∨ e ∈ (sm.rebuildSyntaxMappings compile syntaxMappingSetting2).value) :
    e.2 ≠ [] := by
  unfold SyntaxMappings.init at hinit
  cases hst : buildSyntaxMappingsFromSt compile yamlLoad resources with
  | error e3 => rw [hst] at hinit; cases hinit
  | ok st =>
    rw [hst] at hinit
    injection hinit with hinit
    subst hinit
    have hsingle := buildSt_entries_singleton compile yamlLoad resources st hst
    simp only [SyntaxMappings.rebuildSyntaxMappings, SyntaxMappings.value] at he
    rcases he with he | he
    all_goals rcases List.mem_append.mp he with hu | hs
    · exact buildUser_entries_nonemptyPatterns compile syntaxMappingSetting e hu
    · have h1 := hsingle e hs
      intro hnil
      rw [hnil] at h1
      simp at h1
    · exact buildUser_entries_nonemptyPatterns compile syntaxMappingSetting2 e hu
    · have h1 := hsingle e hs
      intro hnil
      rw [hnil] at h1
      simp at h1
/-! ## Witnesses at concrete inputs -/

/-- A concrete user `syntax_mapping` setting with one entry. -/
def userSetting : List (String × List Str) :=
  [("Packages/User/U.sublime-syntax", ["^u".toList])]

/-- A concrete host-discovered part of the table. -/
def hostTable : List (String × List Regex) :=
  [("Packages/Host/H.sublime-syntax", [regexAlwaysTrue])]

/-- A `yaml.load` behaviour that always parses to a mapping with a
`first_line_match` field. -/
def yamlLoadOk : YamlLoad := fun _ => .ok [(firstLineMatchLit, "^ok".toList)]

/-- One well-formed discovered resource. -/
def goodResource : List (String × Str) :=
  [("Packages/Good/Good.sublime-syntax", "% YAML 1.2\nfirst_line_match: ^ok".toList)]

/-- The `SyntaxMappings` state built from `goodResource` and `userSetting`. -/
def smSample : SyntaxMappings :=
  ⟨[("Packages/User/U.sublime-syntax", [regexAlwaysTrue]),
    ("Packages/Good/Good.sublime-syntax", [regexAlwaysTrue])],
   [("Packages/Good/Good.sublime-syntax", [regexAlwaysTrue])]⟩

/-- Witness for C2: with one matching user entry and one matching host
entry, the applier picks the user entry's identifier. -/
theorem C2_value_order_user_precedence_witness :
    matchFirstLine
        ((SyntaxMappings.mk [] hostTable).rebuildSyntaxMappings compileAlwaysOk
          userSetting).value "#!u line".toList
      = some "Packages/User/U.sublime-syntax" :=
  (C2_value_order_user_precedence (SyntaxMappings.mk [] hostTable) compileAlwaysOk
    userSetting "#!u line".toList
    ("Packages/User/U.sublime-syntax", [regexAlwaysTrue])
    ("Packages/Host/H.sublime-syntax", [regexAlwaysTrue])
    rfl (List.mem_cons_self _ _) rfl).2

/-- Witness for C4 at the concrete failing pattern `"("`. -/
theorem C4_invalid_working_scope_fail_closed_witness :
    compileWorkingScope (fun _ => none) "(".toList
      = (none, [workingScopeErrorMessage "(".toList],
         [workingScopeErrorMessage "(".toList]) :=
  (C4_invalid_working_scope_fail_closed (fun _ => none) "(".toList none sampleView
    "paste" rfl).1

/-- Witness for C10 at the concrete well-formed resource. -/
theorem C10_host_entries_have_one_pattern_witness :
    (("Packages/Good/Good.sublime-syntax", [regexAlwaysTrue]) : String × List Regex).2.length
      = 1 :=
  (C10_host_entries_have_one_pattern compileAlwaysOk yamlLoadOk goodResource
    [("Packages/Good/Good.sublime-syntax", [regexAlwaysTrue])] userSetting
    ("Packages/Good/Good.sublime-syntax", [regexAlwaysTrue]) rfl).1
    (List.mem_cons_self _ _)

/-- Witness for C8 at the concretely constructed table. -/
theorem C8_value_entries_never_empty_witness :
    (("Packages/User/U.sublime-syntax", [regexAlwaysTrue]) : String × List Regex).2 ≠ [] :=
  C8_value_entries_never_empty compileAlwaysOk yamlLoadOk goodResource userSetting
    userSetting smSample ("Packages/User/U.sublime-syntax", [regexAlwaysTrue]) rfl
    (Or.inl (List.mem_cons_self _ _))
